import Mathlib

/-!
Verification of the reconciliation logic of the Ansible module
`lib/ansible/modules/cloud/otc/otc_rds.py` (class `OTCDatabase` and `main`).

The module's decision logic is embedded shallowly:

* Python values occurring in `module.params` and in the RDS API's JSON
  responses are modelled by `Value` (strings, integers, dicts, `None`).
* `module.params` and instance snapshots are association lists
  `List (String × Value)`; iteration order of a Python dict is its
  insertion order, which the list order models.
* The external flavor resolution `get_rds_flavor_id()` performs HTTP
  lookups; its result (a flavor id string, or `None` when no flavor's
  specCode matches) is passed in as an `Option String`, per the spec's
  external-interface contract `resolve_flavor(...) -> Option FlavorId`.
* `module.fail_json` / `module.exit_json` terminate the module process,
  and each REST mutation is recorded as an `Action`; a run therefore
  yields the list of mutations issued, in order, together with the
  terminal `Outcome`.  A Python `KeyError`/`TypeError`/`AttributeError`
  raised by a subscript or method on an ill-shaped value is modelled by
  the `pyError` outcome (resp. `Except.error` inside `_get_updates`).
-/

namespace OtcRds

/-- A Python value as used by the module: parameter values and JSON data. -/
inductive Value where
  | str (s : String)
  | int (n : Int)
  | dict (d : List (String × Value))
  | none

mutual

/-- Decidable equality on `Value` (Python `==` between JSON-like values). -/
def Value.decEq : (a b : Value) → Decidable (a = b)
  | Value.str a, Value.str b =>
    if h : a = b then isTrue (by rw [h]) else isFalse (by simp [h])
  | Value.str _, Value.int _ => isFalse (fun h => Value.noConfusion h)
  | Value.str _, Value.dict _ => isFalse (fun h => Value.noConfusion h)
  | Value.str _, Value.none => isFalse (fun h => Value.noConfusion h)
  | Value.int _, Value.str _ => isFalse (fun h => Value.noConfusion h)
  | Value.int a, Value.int b =>
    if h : a = b then isTrue (by rw [h]) else isFalse (by simp [h])
  | Value.int _, Value.dict _ => isFalse (fun h => Value.noConfusion h)
  | Value.int _, Value.none => isFalse (fun h => Value.noConfusion h)
  | Value.dict _, Value.str _ => isFalse (fun h => Value.noConfusion h)
  | Value.dict _, Value.int _ => isFalse (fun h => Value.noConfusion h)
  | Value.dict a, Value.dict b =>
    match entriesDecEq a b with
    | isTrue h => isTrue (by rw [h])
    | isFalse h => isFalse (by simp [h])
  | Value.dict _, Value.none => isFalse (fun h => Value.noConfusion h)
  | Value.none, Value.str _ => isFalse (fun h => Value.noConfusion h)
  | Value.none, Value.int _ => isFalse (fun h => Value.noConfusion h)
  | Value.none, Value.dict _ => isFalse (fun h => Value.noConfusion h)
  | Value.none, Value.none => isTrue rfl

/-- Decidable equality on dict entry lists. -/
def entriesDecEq : (a b : List (String × Value)) → Decidable (a = b)
  | [], [] => isTrue rfl
  | [], _ :: _ => isFalse (by simp)
  | _ :: _, [] => isFalse (by simp)
  | (k1, v1) :: r1, (k2, v2) :: r2 =>
    if hk : k1 = k2 then
      match Value.decEq v1 v2 with
      | isTrue hv =>
        match entriesDecEq r1 r2 with
        | isTrue hr => isTrue (by rw [hk, hv, hr])
        | isFalse hr => isFalse (by simp [hr])
      | isFalse hv => isFalse (by simp [hv])
    else isFalse (by simp [hk])

end

instance : DecidableEq Value := Value.decEq

/-- An association list modelling a Python dict in iteration order. -/
abbrev PDict := List (String × Value)

/-- Python dict subscript `d[k]` on an association list: first binding wins. -/
def plookup : PDict → String → Option Value
  | [], _ => Option.none
  | (k, v) :: rest, key => if k = key then some v else plookup rest key

/-- Subscript `v[k]` on a `Value`: defined only when `v` is a dict. -/
def dictGet : Value → String → Option Value
  | Value.dict d, key => plookup d key
  | _, _ => Option.none

/-- The value of `get_rds_flavor_id()` as a Python object: the id string,
or Python `None` when no flavor matched. -/
def flavorValue : Option String → Value
  | some s => Value.str s
  | Option.none => Value.none

/-- Python `str()` as used by `"...{}".format(value)`.  Strings render as
themselves, integers and `None` as in Python; the dict rendering is an
approximation (the module only ever formats its string-typed `flavor`
parameter this way). -/
def pyStr : Value → String
  | Value.str s => s
  | Value.int n => toString n
  | Value.none => "None"
  | Value.dict _ => "\x7bdict\x7d"

/-- Python `s.startswith(pre)`: `pre` is a prefix of `s` (character-wise,
matching `String.startsWith`, stated on the character lists). -/
def pyStartsWith (s pre : String) : Bool :=
  pre.data.isPrefixOf s.data

/-- `self.module.params['datastore']['type']`, provided it is a string
(any failing subscript, or a non-string type, raises in Python; callers
map `Option.none` to an error). -/
def dsType (params : PDict) : Option String :=
  match plookup params "datastore" with
  | some ds =>
    match dictGet ds "type" with
    | some (Value.str t) => some t
    | _ => Option.none
  | Option.none => Option.none

/-- The body of the `for key, value in self.module.params.items()` loop of
`OTCDatabase._get_updates` for a single parameter entry: either skip the
entry (`ok Option.none`), record a diff entry `{key: {'old': instance[key],
'new': value}}` (`ok (some ...)`), or raise (`error`). -/
def checkEntry (params : PDict) (inst : PDict) (flavorId : Option String)
    (key : String) (value : Value) : Except String (Option (String × Value × Value)) :=
  match plookup inst key with
  | Option.none => Except.ok Option.none
  | some iv =>
    if iv = value then Except.ok Option.none
    else if key = "name" then
      -- instance[key].startswith(value + '-' + params['datastore']['type'])
      match iv, value, dsType params with
      | Value.str inm, Value.str dn, some dt =>
        if pyStartsWith inm (dn ++ "-" ++ dt) then Except.ok Option.none
        else Except.ok (some (key, iv, value))
      | _, _, _ => Except.error "TypeError/KeyError in name comparison"
    else if key = "flavor" then
      -- self.get_rds_flavor_id() == instance[key]['id']
      match dictGet iv "id" with
      | some idv =>
        if flavorValue flavorId = idv then Except.ok Option.none
        else Except.ok (some (key, iv, value))
      | Option.none => Except.error "TypeError/KeyError reading instance flavor id"
    else if key = "volume" then
      -- value['type'] == instance[key]['type'] and value['size'] == instance[key]['size']
      match dictGet value "type", dictGet iv "type" with
      | some vt, some it =>
        if vt = it then
          match dictGet value "size", dictGet iv "size" with
          | some vs, some iSz =>
            if vs = iSz then Except.ok Option.none
            else Except.ok (some (key, iv, value))
          | _, _ => Except.error "TypeError/KeyError reading volume size"
        else Except.ok (some (key, iv, value))
      | _, _ => Except.error "TypeError/KeyError reading volume type"
    else Except.ok (some (key, iv, value))

/-- The loop of `OTCDatabase._get_updates` over the remaining parameter
entries, accumulating the `update_list` in iteration order. -/
def getUpdatesAux (params : PDict) (inst : PDict) (flavorId : Option String) :
    PDict → Except String (List (String × Value × Value))
  | [] => Except.ok []
  | (k, v) :: rest =>
    match checkEntry params inst flavorId k v with
    | Except.error e => Except.error e
    | Except.ok Option.none => getUpdatesAux params inst flavorId rest
    | Except.ok (some entry) =>
      match getUpdatesAux params inst flavorId rest with
      | Except.error e => Except.error e
      | Except.ok l => Except.ok (entry :: l)

/-- `OTCDatabase._get_updates(instance)`: the diff between `module.params`
and the instance snapshot, as a list of `(field, old, new)` entries in
parameter iteration order. -/
def getUpdates (params : PDict) (inst : PDict) (flavorId : Option String) :
    Except String (List (String × Value × Value)) :=
  getUpdatesAux params inst flavorId params

/-- A remote mutation issued by the module: each constructor is one REST
call that changes provider-side state (`POST /instances`,
`DELETE /instances/{id}`, and the two `POST /instances/{id}/action`
resize bodies). -/
inductive Action where
  | create
  | deleteInst (id : Value)
  | volumeResize (instId : String) (size : Value)
  | flavorResize (instId : String) (flavorRef : Value)
  deriving DecidableEq

/-- How a run of the module terminates. `exitNoChange` is
`exit_json(changed=False, ...)`, `exitChanged` is
`exit_json(changed=True, ...)`, `fatal` is `fail_json(msg=..., ...)`
carrying the message and, when the call passes `changes=changes`, the
old/new pair; `pyError` is an uncaught Python exception
(`KeyError`/`TypeError`/`AttributeError`) from an ill-shaped value. -/
inductive Outcome where
  | exitNoChange
  | exitChanged
  | fatal (msg : String) (changes : Option (Value × Value))
  | pyError (msg : String)
  deriving DecidableEq

/-- `fail_json` message of the volume branch of `OTCDatabase.update`. -/
def volumeTypeMsg : String :=
  "only volume size can be changed on the fly, not volume type"

/-- `fail_json` message of the catch-all branch of `OTCDatabase.update`. -/
def immutableMsg : String :=
  "only volume size and flavor can be changed on the fly"

/-- The `for prop, changes in updates.items()` loop of
`OTCDatabase.update`, given the instance id and the flavor resolution
result: returns the resize calls issued, in order, and the terminal
outcome (`exit_json(changed=True)` after the loop, or the `fail_json`
that aborted it). -/
def processUpdates (instId : String) (flavorId : Option String) :
    List (String × Value × Value) → List Action × Outcome
  | [] => ([], Outcome.exitChanged)
  | (prop, old, new) :: rest =>
    if prop = "volume" then
      -- changes['old']['type'] != changes['new']['type']
      match dictGet old "type", dictGet new "type" with
      | some ot, some nt =>
        if ot = nt then
          -- update_volume_size(instance['id'], changes['new']['size'])
          match dictGet new "size" with
          | some sz =>
            (Action.volumeResize instId sz :: (processUpdates instId flavorId rest).1,
             (processUpdates instId flavorId rest).2)
          | Option.none => ([], Outcome.pyError "KeyError reading volume size")
        else ([], Outcome.fatal volumeTypeMsg (some (old, new)))
      | _, _ => ([], Outcome.pyError "TypeError/KeyError reading volume type")
    else if prop = "flavor" then
      -- update_flavor posts resize with flavorRef = get_rds_flavor_id()
      (Action.flavorResize instId (flavorValue flavorId) :: (processUpdates instId flavorId rest).1,
       (processUpdates instId flavorId rest).2)
    else ([], Outcome.fatal immutableMsg Option.none)

/-- `OTCDatabase.get_instance`: scan the listed instances for the first
whose name starts with `params['name'] + '-' + params['datastore']['type']`. -/
def get_instance (params : PDict) : List PDict → Except String (Option PDict)
  | [] => Except.ok Option.none
  | inst :: rest =>
    match plookup inst "name", plookup params "name", dsType params with
    | some (Value.str inm), some (Value.str dn), some dt =>
      if pyStartsWith inm (dn ++ "-" ++ dt) then Except.ok (some inst)
      else get_instance params rest
    | _, _, _ => Except.error "TypeError/KeyError in get_instance"

/-- `OTCDatabase.create`, after the flavor lookup returned `flavorId`
(an exception inside `get_rds_flavor_id` itself is transport-level and
out of scope).  `if not flavor_id` is Python truthiness: both `None` and
the empty string are falsy.  The `api_body` built from the required
parameters (present by the argument spec) is elided: the claims concern
only the emitted create call and the failure message. -/
def createRun (params : PDict) (flavorId : Option String) : List Action × Outcome :=
  match flavorId with
  | some f =>
    if f = "" then
      match plookup params "flavor" with
      | some fv => ([], Outcome.fatal ("Could not find flavor " ++ pyStr fv) Option.none)
      | Option.none => ([], Outcome.pyError "KeyError reading flavor param")
    else ([Action.create], Outcome.exitChanged)
  | Option.none =>
    match plookup params "flavor" with
    | some fv => ([], Outcome.fatal ("Could not find flavor " ++ pyStr fv) Option.none)
    | Option.none => ([], Outcome.pyError "KeyError reading flavor param")

/-- `OTCDatabase.update` on a found instance `inst`, whose detailed
snapshot (`GET instances/{id}` response field `'instance'`) is `detail`:
`'instances/' + instance['id']` requires a string id, then the diff is
computed and either `exit_json(changed=False)` (empty diff) or the
update loop runs. -/
def updateRun (params : PDict) (inst : PDict) (detail : PDict)
    (flavorId : Option String) : List Action × Outcome :=
  match plookup inst "id" with
  | some (Value.str instId) =>
    match getUpdates params detail flavorId with
    | Except.error e => ([], Outcome.pyError e)
    | Except.ok [] => ([], Outcome.exitNoChange)
    | Except.ok (u :: us) => processUpdates instId flavorId (u :: us)
  | _ => ([], Outcome.pyError "TypeError concatenating instance id")

/-- `OTCDatabase.delete`: exit unchanged when no instance matches,
otherwise issue the delete call (`'instances/{}'.format(instance['id'])`
formats any id value). -/
def deleteRun (params : PDict) (instances : List PDict) : List Action × Outcome :=
  match get_instance params instances with
  | Except.error e => ([], Outcome.pyError e)
  | Except.ok Option.none => ([], Outcome.exitNoChange)
  | Except.ok (some inst) =>
    match plookup inst "id" with
    | some idv => ([Action.deleteInst idv], Outcome.exitChanged)
    | Option.none => ([], Outcome.pyError "KeyError reading instance id")

/-- The `state == 'present'` branch of `main`: `database.update()` runs
first; it terminates the module unless `get_instance` found nothing, in
which case it returns `None` and `database.create()` runs.  `detail` is
the detailed snapshot the update path would fetch for the found
instance. -/
def runPresent (params : PDict) (instances : List PDict) (detail : PDict)
    (flavorId : Option String) : List Action × Outcome :=
  match get_instance params instances with
  | Except.error e => ([], Outcome.pyError e)
  | Except.ok Option.none => createRun params flavorId
  | Except.ok (some inst) => updateRun params inst detail flavorId

/-- The `state == 'absent'` branch of `main`: `database.delete()`. -/
def runAbsent (params : PDict) (instances : List PDict) : List Action × Outcome :=
  deleteRun params instances

/-! ## Structural lemmas about the diff computation -/

/-- Whenever `checkEntry` records a diff entry, that entry is
`(key, instance[key], value)` with the key present in the snapshot. -/
theorem checkEntry_some_shape {params inst : PDict} {fid : Option String}
    {k : String} {v : Value} {e : String × Value × Value}
    (h : checkEntry params inst fid k v = Except.ok (some e)) :
    ∃ iv, plookup inst k = some iv ∧ e = (k, iv, v) := by
  unfold checkEntry at h
  cases hlk : plookup inst k with
  | none => rw [hlk] at h; exact absurd h (by simp)
  | some iv =>
    rw [hlk] at h
    refine ⟨iv, rfl, ?_⟩
    repeat' split at h
    all_goals simp_all

/-- Every entry of a successfully computed `update_list` was recorded by
`checkEntry` from some parameter entry of the iterated list. -/
theorem getUpdatesAux_mem {params inst : PDict} {fid : Option String} :
    ∀ (l : PDict) (entries : List (String × Value × Value)),
      getUpdatesAux params inst fid l = Except.ok entries →
      ∀ e ∈ entries, ∃ v, (e.1, v) ∈ l ∧
        checkEntry params inst fid e.1 v = Except.ok (some e) := by
  intro l
  induction l with
  | nil =>
    intro entries h e he
    simp only [getUpdatesAux] at h
    cases h
    simp at he
  | cons kv rest ih =>
    intro entries h e he
    obtain ⟨k, v⟩ := kv
    simp only [getUpdatesAux] at h
    cases hc : checkEntry params inst fid k v with
    | error msg => rw [hc] at h; cases h
    | ok o =>
      rw [hc] at h
      cases o with
      | none =>
        obtain ⟨v0, hv0, hch⟩ := ih entries h e he
        exact ⟨v0, List.mem_cons_of_mem _ hv0, hch⟩
      | some entry =>
        cases hr : getUpdatesAux params inst fid rest with
        | error msg => rw [hr] at h; cases h
        | ok l2 =>
          rw [hr] at h
          cases h
          rcases List.mem_cons.mp he with he1 | he2
          · subst he1
            obtain ⟨iv, _, hshape⟩ := checkEntry_some_shape hc
            refine ⟨v, ?_, ?_⟩
            · rw [hshape]; exact List.mem_cons_self _ _
            · rw [hshape] at hc ⊢; exact hc
          · obtain ⟨v0, hv0, hch⟩ := ih l2 hr e he2
            exact ⟨v0, List.mem_cons_of_mem _ hv0, hch⟩

/-- Prefixes of the parameter list on which every entry is skipped do not
contribute to the `update_list`. -/
theorem getUpdatesAux_all_none {params inst : PDict} {fid : Option String} :
    ∀ (l1 l2 : PDict),
      (∀ kv ∈ l1, checkEntry params inst fid kv.1 kv.2 = Except.ok Option.none) →
      getUpdatesAux params inst fid (l1 ++ l2) = getUpdatesAux params inst fid l2 := by
  intro l1
  induction l1 with
  | nil => intro l2 _; rfl
  | cons kv rest ih =>
    intro l2 h
    have hhd := h kv (List.mem_cons_self _ _)
    simp only [List.cons_append, getUpdatesAux, hhd]
    exact ih l2 (fun kv2 h2 => h kv2 (List.mem_cons_of_mem _ h2))

/-- The update loop never issues a create call. -/
theorem create_not_mem_processUpdates (instId : String) (fid : Option String) :
    ∀ l, Action.create ∉ (processUpdates instId fid l).1 := by
  intro l
  induction l with
  | nil => simp [processUpdates]
  | cons e rest ih =>
    obtain ⟨prop, old, new⟩ := e
    simp only [processUpdates]
    repeat' split
    all_goals simp_all

/-- A key absent from the snapshot is skipped by the diff loop. -/
theorem checkEntry_absent {params inst : PDict} {fid : Option String}
    {k : String} {v : Value} (h : plookup inst k = Option.none) :
    checkEntry params inst fid k v = Except.ok Option.none := by
  simp [checkEntry, h]

/-- A key whose remote value equals the desired value is skipped. -/
theorem checkEntry_equal {params inst : PDict} {fid : Option String}
    {k : String} {v : Value} (h : plookup inst k = some v) :
    checkEntry params inst fid k v = Except.ok Option.none := by
  simp [checkEntry, h]

/-- The name entry is skipped when the remote name starts with
`desired_name + "-" + datastore_type`. -/
theorem checkEntry_name_skip {params inst : PDict} {fid : Option String}
    {dn dt inm : String}
    (hinm : plookup inst "name" = some (Value.str inm))
    (hds : dsType params = some dt)
    (hpre : pyStartsWith inm (dn ++ "-" ++ dt) = true) :
    checkEntry params inst fid "name" (Value.str dn) = Except.ok Option.none := by
  simp only [checkEntry, hinm]
  by_cases heq : Value.str inm = Value.str dn
  · simp [heq]
  · simp [heq, hds, hpre]

/-- The flavor entry is skipped when the desired flavor resolves to the
remote flavor id. -/
theorem checkEntry_flavor_skip {params inst : PDict} {fid : String}
    {v ifv : Value}
    (hifv : plookup inst "flavor" = some ifv)
    (hfid : dictGet ifv "id" = some (Value.str fid)) :
    checkEntry params inst (some fid) "flavor" v = Except.ok Option.none := by
  simp only [checkEntry, hifv]
  by_cases heq : ifv = v
  · simp [heq]
  · simp [heq, hfid, flavorValue]

/-- The volume entry is skipped when both the type and the size agree. -/
theorem checkEntry_volume_skip {params inst : PDict} {fid : Option String}
    {vVal ivol vt vs : Value}
    (hivol : plookup inst "volume" = some ivol)
    (hvt1 : dictGet vVal "type" = some vt) (hvt2 : dictGet ivol "type" = some vt)
    (hvs1 : dictGet vVal "size" = some vs) (hvs2 : dictGet ivol "size" = some vs) :
    checkEntry params inst fid "volume" vVal = Except.ok Option.none := by
  simp only [checkEntry, hivol]
  by_cases heq : ivol = vVal
  · simp [heq]
  · simp [heq, hvt1, hvt2, hvs1, hvs2]

/-- The volume entry is recorded when the types agree but the sizes
differ. -/
theorem checkEntry_volume_size_diff {params inst : PDict} {fid : Option String}
    {vVal ivol vt vs iSz : Value}
    (hivol : plookup inst "volume" = some ivol)
    (hvt1 : dictGet vVal "type" = some vt) (hvt2 : dictGet ivol "type" = some vt)
    (hvs1 : dictGet vVal "size" = some vs) (hvs2 : dictGet ivol "size" = some iSz)
    (hneq : vs ≠ iSz) :
    checkEntry params inst fid "volume" vVal =
      Except.ok (some ("volume", ivol, vVal)) := by
  have heq : ivol ≠ vVal := by
    intro h
    rw [h, hvs1] at hvs2
    exact hneq (Option.some.inj hvs2)
  simp only [checkEntry, hivol]
  simp [heq, hvt1, hvt2, hvs1, hvs2, hneq]

/-! ## Concrete fixtures (the spec's worked example, section 8) -/

/-- Desired parameters: the module invocation of the spec's example, with
the keys in `argument_spec` iteration order. -/
def exParams : PDict :=
  [("name", Value.str "test-mysql"),
   ("datastore", Value.dict [("type", Value.str "MySQL"), ("version", Value.str "5.6.30")]),
   ("flavor", Value.str "s1.medium"),
   ("volume", Value.dict [("type", Value.str "COMMON"), ("size", Value.int 100)]),
   ("availabilityZone", Value.str "eu-de-01"),
   ("vpc", Value.str "vpc-a"),
   ("state", Value.str "present")]

/-- A remote snapshot that matches `exParams` exactly (flavor resolves to
`"F1"`). -/
def exInstMatching : PDict :=
  [("id", Value.str "I1"),
   ("name", Value.str "test-mysql-MySQL-8f3"),
   ("flavor", Value.dict [("id", Value.str "F1")]),
   ("volume", Value.dict [("type", Value.str "COMMON"), ("size", Value.int 100)]),
   ("status", Value.str "ACTIVE")]

/-- Like `exInstMatching` but with a different remote flavor id, so only
the flavor differs. -/
def exInstFlavorDiff : PDict :=
  [("id", Value.str "I1"),
   ("name", Value.str "test-mysql-MySQL-8f3"),
   ("flavor", Value.dict [("id", Value.str "F9")]),
   ("volume", Value.dict [("type", Value.str "COMMON"), ("size", Value.int 100)]),
   ("status", Value.str "ACTIVE")]

/-- Like `exInstMatching` but with a different flavor id and a different
volume type, so both the flavor and the volume differ. -/
def exInstFlavorVolType : PDict :=
  [("id", Value.str "I1"),
   ("name", Value.str "test-mysql-MySQL-8f3"),
   ("flavor", Value.dict [("id", Value.str "F9")]),
   ("volume", Value.dict [("type", Value.str "SSD"), ("size", Value.int 100)]),
   ("status", Value.str "ACTIVE")]

/-- Like `exInstMatching` but with volume size 150, so only the volume
size differs (the spec's second worked example). -/
def exInstVolSizeDiff : PDict :=
  [("id", Value.str "I1"),
   ("name", Value.str "test-mysql-MySQL-8f3"),
   ("flavor", Value.dict [("id", Value.str "F1")]),
   ("volume", Value.dict [("type", Value.str "COMMON"), ("size", Value.int 150)]),
   ("status", Value.str "ACTIVE")]

/-- Like `exInstMatching` but with a different `vpc` value, so only the
non-resizable field `vpc` differs. -/
def exInstVpcDiff : PDict :=
  [("id", Value.str "I1"),
   ("name", Value.str "test-mysql-MySQL-8f3"),
   ("flavor", Value.dict [("id", Value.str "F1")]),
   ("volume", Value.dict [("type", Value.str "COMMON"), ("size", Value.int 100)]),
   ("vpc", Value.str "vpc-b"),
   ("status", Value.str "ACTIVE")]

/-- Like `exInstMatching` but with a different `availabilityZone` value,
so only that non-resizable field differs. -/
def exInstAzDiff : PDict :=
  [("id", Value.str "I1"),
   ("name", Value.str "test-mysql-MySQL-8f3"),
   ("flavor", Value.dict [("id", Value.str "F1")]),
   ("volume", Value.dict [("type", Value.str "COMMON"), ("size", Value.int 100)]),
   ("availabilityZone", Value.str "eu-de-02"),
   ("status", Value.str "ACTIVE")]

/-! ## Claims -/

/-- C1 (counterexample).  The flavor lookup returns no match
(`flavorId = Option.none`) while the flavor of an existing instance is
being reconciled: the pass does NOT fail with a fatal "flavor not found"
error — it issues the flavor resize with a null `flavorRef` and exits
with `changed=True`. -/
theorem claim1_counterexample :
    updateRun exParams exInstFlavorDiff exInstFlavorDiff Option.none =
      ([Action.flavorResize "I1" Value.none], Outcome.exitChanged) := rfl

/-- C1 (amended).  When the desired flavor cannot be resolved, creation
fails with the fatal error "Could not find flavor <flavor>" including the
desired flavor string; but when resizing the flavor of an existing
instance, no fatal error is raised: the resize request is issued with a
null flavor reference and the pass completes as changed. -/
theorem claim1_flavor_not_found (params : PDict) (fv : String)
    (hf : plookup params "flavor" = some (Value.str fv)) :
    createRun params Option.none =
      ([], Outcome.fatal ("Could not find flavor " ++ fv) Option.none) ∧
    ∀ (instId : String) (old new : Value),
      processUpdates instId Option.none [("flavor", old, new)] =
        ([Action.flavorResize instId Value.none], Outcome.exitChanged) := by
  constructor
  · simp [createRun, hf, pyStr]
  · intro instId old new
    rfl

/-- Witness for C1: the amended theorem applied to the example inputs. -/
theorem claim1_flavor_not_found_witness :
    createRun exParams Option.none =
      ([], Outcome.fatal ("Could not find flavor " ++ "s1.medium") Option.none) ∧
    ∀ (instId : String) (old new : Value),
      processUpdates instId Option.none [("flavor", old, new)] =
        ([Action.flavorResize instId Value.none], Outcome.exitChanged) :=
  claim1_flavor_not_found exParams "s1.medium" rfl

/-- C2 (counterexample).  The diff contains a volume entry whose type
differs, and the pass does end in the fatal volume-type error — but a
remote mutation (the flavor resize) IS attempted before it, because the
flavor entry precedes the volume entry in the diff's iteration order. -/
theorem claim2_counterexample :
    updateRun exParams exInstFlavorVolType exInstFlavorVolType (some "F2") =
      ([Action.flavorResize "I1" (Value.str "F2")],
       Outcome.fatal volumeTypeMsg
         (some (Value.dict [("type", Value.str "SSD"), ("size", Value.int 100)],
                Value.dict [("type", Value.str "COMMON"), ("size", Value.int 100)]))) ∧
    (updateRun exParams exInstFlavorVolType exInstFlavorVolType (some "F2")).1 ≠ [] := by
  exact ⟨rfl, by decide⟩

/-- C2 (amended).  When the diff contains a volume entry whose desired
type differs from the remote type, the pass ends in the fatal error
naming volume type and carrying the old and new volume values, and no
mutation is attempted at or after that entry — but one flavor resize is
attempted first for each flavor entry preceding the volume entry in the
diff's iteration order. -/
theorem claim2_volume_type_fatal (instId : String) (fid : Option String)
    (pre : List (String × Value × Value)) (old new ot nt : Value)
    (rest : List (String × Value × Value))
    (hpre : ∀ e ∈ pre, e.1 = "flavor")
    (hot : dictGet old "type" = some ot)
    (hnt : dictGet new "type" = some nt)
    (hne : ot ≠ nt) :
    processUpdates instId fid (pre ++ ("volume", old, new) :: rest) =
      (pre.map (fun _ => Action.flavorResize instId (flavorValue fid)),
       Outcome.fatal volumeTypeMsg (some (old, new))) := by
  induction pre with
  | nil => simp [processUpdates, hot, hnt, hne]
  | cons e pre2 ih =>
    obtain ⟨prop, o2, n2⟩ := e
    have he : prop = "flavor" := hpre (prop, o2, n2) (List.mem_cons_self _ _)
    subst he
    have ih2 := ih (fun e2 h2 => hpre e2 (List.mem_cons_of_mem _ h2))
    simp [processUpdates, ih2]

/-- Witness for C2: the amended theorem applied to a diff holding one
flavor entry followed by the mismatched volume entry. -/
theorem claim2_volume_type_fatal_witness :
    processUpdates "I1" (some "F2")
      ([("flavor", Value.dict [("id", Value.str "F9")], Value.str "s1.medium")] ++
        ("volume", Value.dict [("type", Value.str "SSD"), ("size", Value.int 100)],
          Value.dict [("type", Value.str "COMMON"), ("size", Value.int 100)]) :: []) =
      ([Action.flavorResize "I1" (Value.str "F2")],
       Outcome.fatal volumeTypeMsg
         (some (Value.dict [("type", Value.str "SSD"), ("size", Value.int 100)],
                Value.dict [("type", Value.str "COMMON"), ("size", Value.int 100)]))) := by
  simpa using claim2_volume_type_fatal "I1" (some "F2")
    [("flavor", Value.dict [("id", Value.str "F9")], Value.str "s1.medium")]
    (Value.dict [("type", Value.str "SSD"), ("size", Value.int 100)])
    (Value.dict [("type", Value.str "COMMON"), ("size", Value.int 100)])
    (Value.str "SSD") (Value.str "COMMON") []
    (by intro e he; simp at he; rw [he]) rfl rfl (by decide)

/-- C3 (counterexample).  Two passes whose diffs contain different
non-resizable fields with different old/new values fail with the SAME
fatal error, whose message is a fixed string carrying neither the field
name nor the values: the error does not list the offending field. -/
theorem claim3_counterexample :
    updateRun exParams exInstVpcDiff exInstVpcDiff (some "F1") =
      ([], Outcome.fatal immutableMsg Option.none) ∧
    updateRun exParams exInstAzDiff exInstAzDiff (some "F1") =
      ([], Outcome.fatal immutableMsg Option.none) ∧
    immutableMsg = "only volume size and flavor can be changed on the fly" :=
  ⟨rfl, rfl, rfl⟩

/-- An already-recorded diff entry that the update loop can apply without
terminating: a flavor entry, or a volume entry whose types agree and
whose desired size is present. -/
def entryOk (e : String × Value × Value) : Prop :=
  e.1 = "flavor" ∨
    (e.1 = "volume" ∧ ∃ t, dictGet e.2.1 "type" = some t ∧ dictGet e.2.2 "type" = some t ∧
      ∃ s, dictGet e.2.2 "size" = some s)

/-- C3 (amended).  When the diff contains a mismatched field that is
neither the flavor nor the volume (all entries before it being applicable
resizes), the pass ends in a fatal error — but that error is the fixed
message "only volume size and flavor can be changed on the fly", which
does not list the offending field name nor its old and new values. -/
theorem claim3_immutable_fatal (instId : String) (fid : Option String)
    (pre : List (String × Value × Value)) (k : String) (o n : Value)
    (rest : List (String × Value × Value))
    (hpre : ∀ e ∈ pre, entryOk e)
    (hk1 : k ≠ "volume") (hk2 : k ≠ "flavor") :
    (processUpdates instId fid (pre ++ (k, o, n) :: rest)).2 =
      Outcome.fatal immutableMsg Option.none := by
  induction pre with
  | nil => simp [processUpdates, hk1, hk2]
  | cons e pre2 ih =>
    obtain ⟨prop, o2, n2⟩ := e
    have ih2 := ih (fun e2 h2 => hpre e2 (List.mem_cons_of_mem _ h2))
    rcases hpre (prop, o2, n2) (List.mem_cons_self _ _) with he | ⟨he, t, ht1, ht2, s, hs⟩
    · simp only at he
      subst he
      simp [processUpdates, ih2]
    · simp only at he
      subst he
      simp [processUpdates, ht1, ht2, hs, ih2]

/-- Witness for C3: the amended theorem applied to a diff holding one
applicable volume-size entry followed by a `vpc` entry. -/
theorem claim3_immutable_fatal_witness :
    (processUpdates "I1" (some "F1")
      ([("volume", Value.dict [("type", Value.str "COMMON"), ("size", Value.int 150)],
          Value.dict [("type", Value.str "COMMON"), ("size", Value.int 100)])] ++
        ("vpc", Value.str "vpc-b", Value.str "vpc-a") :: [])).2 =
      Outcome.fatal immutableMsg Option.none := by
  exact claim3_immutable_fatal "I1" (some "F1")
    [("volume", Value.dict [("type", Value.str "COMMON"), ("size", Value.int 150)],
        Value.dict [("type", Value.str "COMMON"), ("size", Value.int 100)])]
    "vpc" (Value.str "vpc-b") (Value.str "vpc-a") []
    (by intro e he; simp at he; rw [he]; exact Or.inr ⟨rfl, Value.str "COMMON", rfl, rfl, Value.int 100, rfl⟩)
    (by decide) (by decide)

/-- C4 (counterexample).  An existing instance whose volume size, volume
type, resolved flavor id and (prefix-matched) name all equal the desired
values, yet the computed diff is NOT empty and the pass is NOT a no-op:
the snapshot's `vpc` value differs from the desired one, so the diff
holds a `vpc` entry and the pass dies with the immutable-field error. -/
theorem claim4_counterexample :
    getUpdates exParams exInstVpcDiff (some "F1") =
      Except.ok [("vpc", Value.str "vpc-b", Value.str "vpc-a")] ∧
    updateRun exParams exInstVpcDiff exInstVpcDiff (some "F1") =
      ([], Outcome.fatal immutableMsg Option.none) := ⟨rfl, rfl⟩

/-- C4 (amended).  For an existing instance whose volume size and type
equal the desired values, whose desired flavor resolves to the remote
flavor id, whose name matches under the prefix rule, and — additionally —
every other desired parameter whose key appears in the snapshot has an
equal value there, the computed diff is empty and the pass reports no
change, issuing no mutation. -/
theorem claim4_noop (params detail instL : PDict)
    (dn dt inm fid iid : String) (vVal ivol ifv vt vs : Value)
    (hiid : plookup instL "id" = some (Value.str iid))
    (hds : dsType params = some dt)
    (hname : ∀ v, ("name", v) ∈ params → v = Value.str dn)
    (hinm : plookup detail "name" = some (Value.str inm))
    (hpre : pyStartsWith inm (dn ++ "-" ++ dt) = true)
    (hifv : plookup detail "flavor" = some ifv)
    (hfid : dictGet ifv "id" = some (Value.str fid))
    (hvol : ∀ v, ("volume", v) ∈ params → v = vVal)
    (hivol : plookup detail "volume" = some ivol)
    (hvt1 : dictGet vVal "type" = some vt) (hvt2 : dictGet ivol "type" = some vt)
    (hvs1 : dictGet vVal "size" = some vs) (hvs2 : dictGet ivol "size" = some vs)
    (hothers : ∀ kv ∈ params, kv.1 ≠ "name" → kv.1 ≠ "flavor" → kv.1 ≠ "volume" →
      plookup detail kv.1 = Option.none ∨ plookup detail kv.1 = some kv.2) :
    getUpdates params detail (some fid) = Except.ok [] ∧
    updateRun params instL detail (some fid) = ([], Outcome.exitNoChange) := by
  have hchk : ∀ kv ∈ params,
      checkEntry params detail (some fid) kv.1 kv.2 = Except.ok Option.none := by
    intro kv hkv
    obtain ⟨k, v⟩ := kv
    by_cases hk1 : k = "name"
    · subst hk1
      have hv := hname v hkv
      subst hv
      exact checkEntry_name_skip hinm hds hpre
    · by_cases hk2 : k = "flavor"
      · subst hk2
        exact checkEntry_flavor_skip hifv hfid
      · by_cases hk3 : k = "volume"
        · subst hk3
          have hv := hvol v hkv
          subst hv
          exact checkEntry_volume_skip hivol hvt1 hvt2 hvs1 hvs2
        · rcases hothers (k, v) hkv hk1 hk2 hk3 with h | h
          · exact checkEntry_absent h
          · exact checkEntry_equal h
  have h1 : getUpdates params detail (some fid) = Except.ok [] := by
    have h2 := getUpdatesAux_all_none params [] hchk
    rw [List.append_nil] at h2
    rw [getUpdates, h2]
    rfl
  refine ⟨h1, ?_⟩
  simp [updateRun, hiid, h1]

/-- Witness for C4: the amended theorem applied to the spec's worked
example (everything matches, including the `vpc` key absent from the
snapshot). -/
theorem claim4_noop_witness :
    getUpdates exParams exInstMatching (some "F1") = Except.ok [] ∧
    updateRun exParams exInstMatching exInstMatching (some "F1") =
      ([], Outcome.exitNoChange) := by
  exact claim4_noop exParams exInstMatching exInstMatching
    "test-mysql" "MySQL" "test-mysql-MySQL-8f3" "F1" "I1"
    (Value.dict [("type", Value.str "COMMON"), ("size", Value.int 100)])
    (Value.dict [("type", Value.str "COMMON"), ("size", Value.int 100)])
    (Value.dict [("id", Value.str "F1")])
    (Value.str "COMMON") (Value.int 100)
    rfl rfl
    (by intro v hv; simp [exParams] at hv; exact hv)
    rfl (by decide) rfl rfl
    (by intro v hv; simp [exParams] at hv; exact hv)
    rfl rfl rfl rfl rfl
    (by
      intro kv hkv h1 h2 h3
      simp [exParams] at hkv
      rcases hkv with h | h | h | h | h | h | h <;> subst h <;>
        first
          | exact Or.inl rfl
          | simp_all)

/-- C5 (confirmed).  Under the prefix rule a remote name starting with
`desired_name + "-" + datastore_type` produces no name diff entry, and
`get_instance` treats such a name as the match for the lookup. -/
theorem claim5_name_prefix (params inst : PDict) (fid : Option String)
    (dn dt inm : String) (entries : List (String × Value × Value))
    (rest : List PDict)
    (hname : ∀ v, ("name", v) ∈ params → v = Value.str dn)
    (hpn : plookup params "name" = some (Value.str dn))
    (hds : dsType params = some dt)
    (hinm : plookup inst "name" = some (Value.str inm))
    (hpre : pyStartsWith inm (dn ++ "-" ++ dt) = true)
    (hup : getUpdates params inst fid = Except.ok entries) :
    (∀ e ∈ entries, e.1 ≠ "name") ∧
    get_instance params (inst :: rest) = Except.ok (some inst) := by
  constructor
  · intro e he hcontra
    obtain ⟨v, hv, hch⟩ := getUpdatesAux_mem params entries hup e he
    rw [hcontra] at hv hch
    have hvdn := hname v hv
    subst hvdn
    rw [checkEntry_name_skip hinm hds hpre] at hch
    cases hch
  · simp [get_instance, hinm, hpn, hds, hpre]

/-- Witness for C5: desired name "db1" with datastore type "MySQL"
matches the remote name "db1-MySQL-xyz"; the only diff entry is the
unrelated `vpc` field, and the lookup returns the instance. -/
theorem claim5_name_prefix_witness :
    ((("vpc", Value.str "b", Value.str "a") : String × Value × Value).1 ≠ "name") ∧
    get_instance
      [("name", Value.str "db1"), ("datastore", Value.dict [("type", Value.str "MySQL")]),
       ("vpc", Value.str "a")]
      [[("name", Value.str "db1-MySQL-xyz"), ("vpc", Value.str "b")]] =
      Except.ok (some [("name", Value.str "db1-MySQL-xyz"), ("vpc", Value.str "b")]) := by
  have h := claim5_name_prefix
    [("name", Value.str "db1"), ("datastore", Value.dict [("type", Value.str "MySQL")]),
     ("vpc", Value.str "a")]
    [("name", Value.str "db1-MySQL-xyz"), ("vpc", Value.str "b")]
    Option.none "db1" "MySQL" "db1-MySQL-xyz"
    [("vpc", Value.str "b", Value.str "a")] []
    (by intro v hv; simp at hv; exact hv)
    rfl rfl rfl (by decide) rfl
  exact ⟨h.1 ("vpc", Value.str "b", Value.str "a") (by simp), h.2⟩

/-- C6 (confirmed).  When the only difference between desired and
existing is the volume size (volume type equal, flavor resolving to the
remote id, name matching under the prefix rule, every other shared key
equal), the pass issues exactly one volume-size resize, carrying the
desired size. -/
theorem claim6_volume_size_resize (paramsPre paramsPost detail instL : PDict)
    (dn dt inm fid iid : String) (vVal ivol ifv vt vs iSz : Value)
    (hnovol : ∀ kv ∈ paramsPre ++ paramsPost, kv.1 ≠ "volume")
    (hiid : plookup instL "id" = some (Value.str iid))
    (hds : dsType (paramsPre ++ ("volume", vVal) :: paramsPost) = some dt)
    (hname : ∀ v, ("name", v) ∈ paramsPre ++ ("volume", vVal) :: paramsPost →
      v = Value.str dn)
    (hinm : plookup detail "name" = some (Value.str inm))
    (hpre : pyStartsWith inm (dn ++ "-" ++ dt) = true)
    (hifv : plookup detail "flavor" = some ifv)
    (hfid : dictGet ifv "id" = some (Value.str fid))
    (hivol : plookup detail "volume" = some ivol)
    (hvt1 : dictGet vVal "type" = some vt) (hvt2 : dictGet ivol "type" = some vt)
    (hvs1 : dictGet vVal "size" = some vs) (hvs2 : dictGet ivol "size" = some iSz)
    (hneq : vs ≠ iSz)
    (hothers : ∀ kv ∈ paramsPre ++ ("volume", vVal) :: paramsPost,
      kv.1 ≠ "name" → kv.1 ≠ "flavor" → kv.1 ≠ "volume" →
      plookup detail kv.1 = Option.none ∨ plookup detail kv.1 = some kv.2) :
    getUpdates (paramsPre ++ ("volume", vVal) :: paramsPost) detail (some fid) =
      Except.ok [("volume", ivol, vVal)] ∧
    updateRun (paramsPre ++ ("volume", vVal) :: paramsPost) instL detail (some fid) =
      ([Action.volumeResize iid vs], Outcome.exitChanged) := by
  have hchk : ∀ kv ∈ paramsPre ++ paramsPost,
      checkEntry (paramsPre ++ ("volume", vVal) :: paramsPost) detail (some fid)
        kv.1 kv.2 = Except.ok Option.none := by
    intro kv hkv
    obtain ⟨k, v⟩ := kv
    have hk3 : k ≠ "volume" := hnovol (k, v) hkv
    have hkv2 : (k, v) ∈ paramsPre ++ ("volume", vVal) :: paramsPost := by
      rcases List.mem_append.mp hkv with h | h
      · exact List.mem_append.mpr (Or.inl h)
      · exact List.mem_append.mpr (Or.inr (List.mem_cons_of_mem _ h))
    by_cases hk1 : k = "name"
    · subst hk1
      have hv := hname v hkv2
      subst hv
      exact checkEntry_name_skip hinm hds hpre
    · by_cases hk2 : k = "flavor"
      · subst hk2
        exact checkEntry_flavor_skip hifv hfid
      · rcases hothers (k, v) hkv2 hk1 hk2 hk3 with h | h
        · exact checkEntry_absent h
        · exact checkEntry_equal h
  have hvolchk : checkEntry (paramsPre ++ ("volume", vVal) :: paramsPost) detail
      (some fid) "volume" vVal = Except.ok (some ("volume", ivol, vVal)) :=
    checkEntry_volume_size_diff hivol hvt1 hvt2 hvs1 hvs2 hneq
  have h1 : getUpdates (paramsPre ++ ("volume", vVal) :: paramsPost) detail (some fid) =
      Except.ok [("volume", ivol, vVal)] := by
    rw [getUpdates]
    rw [getUpdatesAux_all_none paramsPre (("volume", vVal) :: paramsPost)
      (fun kv h => hchk kv (List.mem_append.mpr (Or.inl h)))]
    simp only [getUpdatesAux, hvolchk]
    have h2 := getUpdatesAux_all_none paramsPost []
      (fun kv h => hchk kv (List.mem_append.mpr (Or.inr h)))
    rw [List.append_nil] at h2
    rw [h2]
    rfl
  refine ⟨h1, ?_⟩
  simp [updateRun, hiid, h1, processUpdates, hvt1, hvt2, hvs1]

/-- Witness for C6: the spec's second worked example — existing volume
size 150, desired 100, everything else matching — yields exactly
`Resize(volume.size, 100)`. -/
theorem claim6_volume_size_resize_witness :
    getUpdates exParams exInstVolSizeDiff (some "F1") =
      Except.ok [("volume",
        Value.dict [("type", Value.str "COMMON"), ("size", Value.int 150)],
        Value.dict [("type", Value.str "COMMON"), ("size", Value.int 100)])] ∧
    updateRun exParams exInstVolSizeDiff exInstVolSizeDiff (some "F1") =
      ([Action.volumeResize "I1" (Value.int 100)], Outcome.exitChanged) := by
  exact claim6_volume_size_resize
    [("name", Value.str "test-mysql"),
     ("datastore", Value.dict [("type", Value.str "MySQL"), ("version", Value.str "5.6.30")]),
     ("flavor", Value.str "s1.medium")]
    [("availabilityZone", Value.str "eu-de-01"),
     ("vpc", Value.str "vpc-a"),
     ("state", Value.str "present")]
    exInstVolSizeDiff exInstVolSizeDiff
    "test-mysql" "MySQL" "test-mysql-MySQL-8f3" "F1" "I1"
    (Value.dict [("type", Value.str "COMMON"), ("size", Value.int 100)])
    (Value.dict [("type", Value.str "COMMON"), ("size", Value.int 150)])
    (Value.dict [("id", Value.str "F1")])
    (Value.str "COMMON") (Value.int 100) (Value.int 150)
    (by intro kv hkv; simp at hkv; rcases hkv with h|h|h|h|h|h <;> simp [h])
    rfl rfl
    (by intro v hv; simp at hv; exact hv)
    rfl (by decide) rfl rfl rfl rfl rfl rfl rfl (by decide)
    (by
      intro kv hkv h1 h2 h3
      simp at hkv
      rcases hkv with h | h | h | h | h | h | h <;> subst h <;>
        first
          | exact Or.inl rfl
          | simp_all)

/-- The update path never issues a create call. -/
theorem create_not_mem_updateRun (params inst detail : PDict) (fid : Option String) :
    Action.create ∉ (updateRun params inst detail fid).1 := by
  unfold updateRun
  repeat' split
  all_goals simp_all [create_not_mem_processUpdates]

/-- C7 (confirmed).  With `state=present`, when the instance lookup finds
nothing the run proceeds to the create path (emitting the create call
when the flavor resolves), and only in that case: when the lookup finds
an instance (or raises), no create call is ever issued. -/
theorem claim7_create_iff_absent (params : PDict) (instances : List PDict)
    (detail : PDict) (flavorId : Option String) :
    (get_instance params instances = Except.ok Option.none →
      runPresent params instances detail flavorId = createRun params flavorId ∧
      (∀ f, flavorId = some f → f ≠ "" →
        runPresent params instances detail flavorId =
          ([Action.create], Outcome.exitChanged))) ∧
    (∀ inst, get_instance params instances = Except.ok (some inst) →
      Action.create ∉ (runPresent params instances detail flavorId).1) ∧
    (∀ e, get_instance params instances = Except.error e →
      Action.create ∉ (runPresent params instances detail flavorId).1) := by
  refine ⟨?_, ?_, ?_⟩
  · intro h
    refine ⟨by simp [runPresent, h], ?_⟩
    intro f hf hne
    subst hf
    simp [runPresent, h, createRun, hne]
  · intro inst h
    simp only [runPresent, h]
    exact create_not_mem_updateRun params inst detail flavorId
  · intro e h
    simp [runPresent, h]

/-- Witness for C7: with no remote instances the run emits exactly the
create call; with a matching instance present it emits none. -/
theorem claim7_create_iff_absent_witness :
    runPresent exParams [] exInstMatching (some "F1") =
      ([Action.create], Outcome.exitChanged) ∧
    Action.create ∉ (runPresent exParams [exInstMatching] exInstMatching (some "F1")).1 :=
  ⟨((claim7_create_iff_absent exParams [] exInstMatching (some "F1")).1 rfl).2
      "F1" rfl (by decide),
   (claim7_create_iff_absent exParams [exInstMatching] exInstMatching
      (some "F1")).2.1 exInstMatching rfl⟩

/-- C8 (confirmed).  With `state=absent`, when no matching instance
exists the run exits reporting no change and no error, issuing no
mutation: deleting an already-absent instance is a benign no-op. -/
theorem claim8_absent_delete_noop (params : PDict) (instances : List PDict)
    (h : get_instance params instances = Except.ok Option.none) :
    runAbsent params instances = ([], Outcome.exitNoChange) := by
  simp [runAbsent, deleteRun, h]

/-- Witness for C8: deleting when the provider lists no instances. -/
theorem claim8_absent_delete_noop_witness :
    runAbsent exParams [] = ([], Outcome.exitNoChange) :=
  claim8_absent_delete_noop exParams [] rfl

/-- C9 (confirmed).  The reconciliation decision is a pure function of
the desired parameters, the remote snapshots and the flavor-resolution
result: two runs on identical inputs compute identical diffs and
identical action traces. -/
theorem claim9_deterministic (pa pb da db ia ib : PDict)
    (la lb : List PDict) (fa fb : Option String)
    (hp : pa = pb) (hd : da = db) (hi : ia = ib) (hl : la = lb) (hf : fa = fb) :
    getUpdates pa da fa = getUpdates pb db fb ∧
    updateRun pa ia da fa = updateRun pb ib db fb ∧
    runPresent pa la da fa = runPresent pb lb db fb ∧
    runAbsent pa la = runAbsent pb lb := by
  subst hp
  subst hd
  subst hi
  subst hl
  subst hf
  exact ⟨rfl, rfl, rfl, rfl⟩

/-- Witness for C9: the determinism theorem applied to the example
inputs. -/
theorem claim9_deterministic_witness :
    getUpdates exParams exInstVolSizeDiff (some "F1") =
      getUpdates exParams exInstVolSizeDiff (some "F1") ∧
    updateRun exParams exInstMatching exInstVolSizeDiff (some "F1") =
      updateRun exParams exInstMatching exInstVolSizeDiff (some "F1") ∧
    runPresent exParams [exInstMatching] exInstVolSizeDiff (some "F1") =
      runPresent exParams [exInstMatching] exInstVolSizeDiff (some "F1") ∧
    runAbsent exParams [exInstMatching] = runAbsent exParams [exInstMatching] :=
  claim9_deterministic exParams exParams exInstVolSizeDiff exInstVolSizeDiff
    exInstMatching exInstMatching [exInstMatching] [exInstMatching]
    (some "F1") (some "F1") rfl rfl rfl rfl rfl

/-- C10 (confirmed).  A desired parameter whose key is absent from the
remote snapshot is never compared and never recorded: no diff entry ever
carries that key, so it can produce neither an update nor an
immutable-field error. -/
theorem claim10_absent_key_never_diffed (params inst : PDict) (fid : Option String)
    (k : String) (entries : List (String × Value × Value))
    (hk : plookup inst k = Option.none)
    (hup : getUpdates params inst fid = Except.ok entries) :
    ∀ e ∈ entries, e.1 ≠ k := by
  intro e he hcontra
  obtain ⟨v, hv, hch⟩ := getUpdatesAux_mem params entries hup e he
  rw [hcontra] at hch
  rw [checkEntry_absent hk] at hch
  cases hch

/-- Witness for C10: `state` is a desired parameter absent from the
snapshot; the single diff entry of the volume-size example does not carry
it. -/
theorem claim10_absent_key_never_diffed_witness :
    (("volume",
      Value.dict [("type", Value.str "COMMON"), ("size", Value.int 150)],
      Value.dict [("type", Value.str "COMMON"), ("size", Value.int 100)]) :
        String × Value × Value).1 ≠ "state" :=
  claim10_absent_key_never_diffed exParams exInstVolSizeDiff (some "F1") "state"
    [("volume",
      Value.dict [("type", Value.str "COMMON"), ("size", Value.int 150)],
      Value.dict [("type", Value.str "COMMON"), ("size", Value.int 100)])]
    rfl rfl
    ("volume",
      Value.dict [("type", Value.str "COMMON"), ("size", Value.int 150)],
      Value.dict [("type", Value.str "COMMON"), ("size", Value.int 100)])
    (by simp)

end OtcRds
